import Mathlib

/-!
Shallow embedding of the MIDI byte-stream decoder from
`arduino-midi-sound-module/midi.h` (`class Midi`), together with proofs of
the specification's claims about it.

Machine integers are modelled as `Nat` (all fields of the decoder are
`uint8_t`; the only wrap that can occur is on `midiDataIndex++`, modelled
with `% 256`).  The handler callbacks (`noteOn`, `noteOff`, ...) are
modelled as an event list returned by each `decode` step.  The pitch-bend
computation uses `int16_t` in the source; for byte-valued inputs the
intermediate values stay within `int16_t` range (max `0x7FFF`), so it is
modelled exactly by a `Nat` shift/or followed by subtraction over `Int`.
-/

/-- Message kinds, mirroring `enum MidiStatus` in midi.h (values 0..8). -/
inductive MidiStatus where
  | NoteOff
  | NoteOn
  | PolyKeyPressure
  | ControlChange
  | ProgramChange
  | ChannelPressure
  | PitchBend
  | Extended
  | Unknown
  deriving DecidableEq

/-- Numeric value of a `MidiStatus`, as in the C++ enum. -/
def MidiStatus.toIdx : MidiStatus → Nat
  | .NoteOff => 0
  | .NoteOn => 1
  | .PolyKeyPressure => 2
  | .ControlChange => 3
  | .ProgramChange => 4
  | .ChannelPressure => 5
  | .PitchBend => 6
  | .Extended => 7
  | .Unknown => 8

/-- The `static_cast<MidiStatus>` of a numeric value, as used in
`Midi::decode` on `(byte >> 4) - 8`.  Values 0..7 name the eight message
kinds; any other value is junk and is mapped to `Unknown` (the decoder is
proved to never produce one on the status-byte path). -/
def MidiStatus.ofIdx : Nat → MidiStatus
  | 0 => .NoteOff
  | 1 => .NoteOn
  | 2 => .PolyKeyPressure
  | 3 => .ControlChange
  | 4 => .ProgramChange
  | 5 => .ChannelPressure
  | 6 => .PitchBend
  | 7 => .Extended
  | _ => .Unknown

/-- One handler invocation.  Each constructor mirrors one of the `extern`
callbacks declared in midi.h; `sysex` receives the byte count and the data
buffer, exactly as `sysex(uint8_t cbData, uint8_t bytes[])` does. -/
inductive MidiEvent where
  | noteOn (channel note velocity : Nat)
  | noteOff (channel note : Nat)
  | controlChange (channel data1 data2 : Nat)
  | pitchBend (channel : Nat) (value : Int)
  | programChange (channel program : Nat)
  | sysex (cbData : Nat) (bytes : List Nat)
  deriving DecidableEq

/-- The decoder's static state: `Midi::midiStatus`, `Midi::midiChannel`,
`Midi::midiDataRemaining`, `Midi::midiDataIndex`, `Midi::midiData`. -/
structure MidiState where
  midiStatus : MidiStatus
  midiChannel : Nat
  midiDataRemaining : Nat
  midiDataIndex : Nat
  midiData : List Nat
  deriving DecidableEq

namespace Midi

/-- `Midi::maxMidiData` — capacity of the data buffer. -/
def maxMidiData : Nat := 32

/-- `Midi::midiStatusToDataLength` — expected data-byte count per message
kind, indexed by the numeric enum value. -/
def midiStatusToDataLength : List Nat :=
  [2, 2, 2, 2, 1, 1, 2, maxMidiData]

/-- The decoder's state at program start, per the static initializers in
midi.h. -/
def initialState : MidiState :=
  { midiStatus := .Unknown
    midiChannel := 0xFF
    midiDataRemaining := 0
    midiDataIndex := 0
    midiData := List.replicate maxMidiData 0 }

/-- `Midi::dispatchCommand` — dispatches the completed message in `s` to
the handler selected by `midiStatus`.  Returns the handler invocations. -/
def dispatchCommand (s : MidiState) : List MidiEvent :=
  let midiData0 := s.midiData.getD 0 0
  match s.midiStatus with
  | .NoteOff => [.noteOff s.midiChannel midiData0]
  | .NoteOn =>
      if s.midiData.getD 1 0 = 0 then
        [.noteOff s.midiChannel midiData0]
      else
        [.noteOn s.midiChannel midiData0 (s.midiData.getD 1 0)]
  | .PitchBend =>
      [.pitchBend s.midiChannel
        ((((s.midiData.getD 1 0) <<< 7 ||| (s.midiData.getD 0 0) : Nat) : Int) - 0x2000)]
  | .ControlChange =>
      [.controlChange s.midiChannel midiData0 (s.midiData.getD 1 0)]
  | .ProgramChange =>
      [.programChange s.midiChannel midiData0]
  | _ => []

/-- `Midi::decode` — feed one byte to the decoder.  Returns the new state
and the handler invocations performed during this call. -/
def decode (s : MidiState) (b : Nat) : MidiState × List MidiEvent :=
  if b &&& 0x80 ≠ 0 then
    if s.midiStatus = .Extended then
      ({ s with midiStatus := .Unknown }, [.sysex s.midiDataIndex s.midiData])
    else
      let st := MidiStatus.ofIdx ((b >>> 4) - 8)
      ({ s with
          midiStatus := st
          midiDataRemaining := midiStatusToDataLength.getD st.toIdx 0
          midiDataIndex := 0
          midiChannel := b &&& 0x0F }, [])
  else
    if 0 < s.midiDataRemaining then
      let s1 : MidiState :=
        { s with
            midiData := s.midiData.set s.midiDataIndex b
            midiDataIndex := (s.midiDataIndex + 1) % 256
            midiDataRemaining := s.midiDataRemaining - 1 }
      if s1.midiDataRemaining = 0 then (s1, dispatchCommand s1) else (s1, [])
    else (s, [])

/-- Feed a list of bytes in order, collecting all handler invocations. -/
def feedAll (s : MidiState) (bs : List Nat) : MidiState × List MidiEvent :=
  match bs with
  | [] => (s, [])
  | b :: rest =>
      let r1 := decode s b
      let r2 := feedAll r1.1 rest
      (r2.1, r1.2 ++ r2.2)

/-- Buffer indices written by `Midi::decode` during one call (the single
`midiData[midiDataIndex++] = byte` store, when it executes). -/
def decodeWriteIdx (s : MidiState) (b : Nat) : List Nat :=
  if b &&& 0x80 ≠ 0 then []
  else if 0 < s.midiDataRemaining then [s.midiDataIndex] else []

/-- Indices used to subscript `midiStatusToDataLength` by `Midi::decode`
during one call (the single lookup on the status-byte path, when it
executes). -/
def decodeTableIdx (s : MidiState) (b : Nat) : List Nat :=
  if b &&& 0x80 ≠ 0 then
    if s.midiStatus = .Extended then [] else [(b >>> 4) - 8]
  else []

/-- Data-length table as enumerated by the spec: {NoteOff:2, NoteOn:2,
PolyKeyPressure:2, ControlChange:2, ProgramChange:1, ChannelPressure:1,
PitchBend:2, Extended: max-data-length}.  Stated per message kind, to be
compared with the source's positional table `midiStatusToDataLength`.
`Unknown` has no entry in the spec's table; it is given 0 here and is
proved unreachable on the lookup path. -/
def specDataLength : MidiStatus → Nat
  | .NoteOff => 2
  | .NoteOn => 2
  | .PolyKeyPressure => 2
  | .ControlChange => 2
  | .ProgramChange => 1
  | .ChannelPressure => 1
  | .PitchBend => 2
  | .Extended => maxMidiData
  | .Unknown => 0

/-- States reachable from the initial decoder state by feeding bytes. -/
inductive Reachable : MidiState → Prop where
  | init : Reachable initialState
  | step (s : MidiState) (b : Nat) (hs : Reachable s) (hb : b < 256) :
      Reachable (decode s b).1

end Midi

set_option maxRecDepth 10000

/-! Bit-level facts about bytes, settled by exhaustive evaluation. -/

theorem fin_shiftLeft7_or : ∀ a b : Fin 128,
    (a.val <<< 7 ||| b.val) = 128 * a.val + b.val := by decide

/-- Concatenating a 7-bit high part and a 7-bit low part by shift-or equals
the corresponding arithmetic combination. -/
theorem shiftLeft7_or (a b : Nat) (ha : a < 128) (hb : b < 128) :
    a <<< 7 ||| b = 128 * a + b :=
  fin_shiftLeft7_or ⟨a, ha⟩ ⟨b, hb⟩

theorem fin_msb_facts : ∀ x : Fin 256, x.val &&& 0x80 ≠ 0 →
    128 ≤ x.val ∧ (x.val >>> 4) - 8 < 8 := by decide

/-- A byte whose `& 0x80` test succeeds has its status-nibble index in
range 0..7. -/
theorem msb_facts (b : Nat) (hb : b < 256) (h : b &&& 0x80 ≠ 0) :
    128 ≤ b ∧ (b >>> 4) - 8 < 8 :=
  fin_msb_facts ⟨b, hb⟩ h

theorem fin_low_and : ∀ x : Fin 128, x.val &&& 0x80 = 0 := by decide

/-- A data byte (value below 0x80) fails the `& 0x80` test. -/
theorem low_and (b : Nat) (hb : b < 128) : b &&& 0x80 = 0 :=
  fin_low_and ⟨b, hb⟩

theorem fin_noteOn_status : ∀ c : Fin 16,
    (0x90 + c.val) &&& 0x80 ≠ 0 ∧ ((0x90 + c.val) >>> 4) - 8 = 1 ∧
    (0x90 + c.val) &&& 0x0F = c.val := by decide

theorem fin_pitchBend_status : ∀ c : Fin 16,
    (0xE0 + c.val) &&& 0x80 ≠ 0 ∧ ((0xE0 + c.val) >>> 4) - 8 = 6 ∧
    (0xE0 + c.val) &&& 0x0F = c.val := by decide

theorem fin_ofIdx_toIdx : ∀ i : Fin 8,
    (MidiStatus.ofIdx i.val).toIdx = i.val := by decide

theorem fin_table_eq_spec : ∀ i : Fin 8,
    Midi.midiStatusToDataLength.getD (MidiStatus.ofIdx i.val).toIdx 0 =
      Midi.specDataLength (MidiStatus.ofIdx i.val) := by decide

/-- The positional source table agrees with the spec's per-kind table at
every index the status-byte path can produce. -/
theorem table_eq_spec (i : Nat) (h : i < 8) :
    Midi.midiStatusToDataLength.getD (MidiStatus.ofIdx i).toIdx 0 =
      Midi.specDataLength (MidiStatus.ofIdx i) :=
  fin_table_eq_spec ⟨i, h⟩

/-- Every entry of the source's data-length table is at most the buffer
capacity. -/
theorem table_le_max (st : MidiStatus) :
    Midi.midiStatusToDataLength.getD st.toIdx 0 ≤ Midi.maxMidiData := by
  cases st <;> decide

/-! List helpers. -/

theorem exists_cons₂ (l : List Nat) (h : 2 ≤ l.length) :
    ∃ a b t, l = a :: b :: t := by
  cases l with
  | nil => simp at h
  | cons a l' =>
    cases l' with
    | nil => simp at h
    | cons b t => exact ⟨a, b, t, rfl⟩

/-! The decoder's buffer-bound invariant. -/

/-- One `decode` step preserves `midiDataIndex + midiDataRemaining ≤ 32`
and the buffer length. -/
theorem inv_decode (s : MidiState) (b : Nat)
    (h1 : s.midiDataIndex + s.midiDataRemaining ≤ Midi.maxMidiData)
    (h2 : s.midiData.length = Midi.maxMidiData) :
    (Midi.decode s b).1.midiDataIndex + (Midi.decode s b).1.midiDataRemaining
        ≤ Midi.maxMidiData ∧
    (Midi.decode s b).1.midiData.length = Midi.maxMidiData := by
  simp only [Midi.maxMidiData] at h1 h2 ⊢
  unfold Midi.decode
  by_cases hb : b &&& 0x80 ≠ 0
  · rw [if_pos hb]
    by_cases hs : s.midiStatus = MidiStatus.Extended
    · rw [if_pos hs]
      exact ⟨h1, h2⟩
    · rw [if_neg hs]
      refine ⟨?_, h2⟩
      simpa using table_le_max (MidiStatus.ofIdx ((b >>> 4) - 8))
  · rw [if_neg hb]
    by_cases hr : 0 < s.midiDataRemaining
    · rw [if_pos hr]
      have hidx : s.midiDataIndex + 1 < 256 := by omega
      have hmod : (s.midiDataIndex + 1) % 256 = s.midiDataIndex + 1 :=
        Nat.mod_eq_of_lt hidx
      by_cases hz : s.midiDataRemaining - 1 = 0
      · rw [if_pos hz]
        constructor
        · simp only [hmod]
          omega
        · simpa using h2
      · rw [if_neg hz]
        constructor
        · simp only [hmod]
          omega
        · simpa using h2
    · rw [if_neg hr]
      exact ⟨h1, h2⟩

/-- Every reachable decoder state satisfies the buffer-bound invariant. -/
theorem reachable_inv (s : MidiState) (h : Midi.Reachable s) :
    s.midiDataIndex + s.midiDataRemaining ≤ Midi.maxMidiData ∧
    s.midiData.length = Midi.maxMidiData := by
  induction h with
  | init => exact ⟨by decide, by decide⟩
  | step s b hs hb ih => exact inv_decode s b ih.1 ih.2

/-- Feeding a status byte whose kind expects two data bytes, then two data
bytes, drives the decoder to dispatch of the completed message. -/
theorem feed_three (s : MidiState) (b d0 d1 : Nat)
    (hst : s.midiStatus ≠ MidiStatus.Extended)
    (hb : b &&& 0x80 ≠ 0)
    (htable : Midi.midiStatusToDataLength.getD
        (MidiStatus.ofIdx ((b >>> 4) - 8)).toIdx 0 = 2)
    (hd0 : d0 < 128) (hd1 : d1 < 128) :
    Midi.feedAll s [b, d0, d1] =
      ({ s with
          midiStatus := MidiStatus.ofIdx ((b >>> 4) - 8)
          midiChannel := b &&& 0x0F
          midiDataRemaining := 0
          midiDataIndex := 2
          midiData := (s.midiData.set 0 d0).set 1 d1 },
       Midi.dispatchCommand
         { s with
           midiStatus := MidiStatus.ofIdx ((b >>> 4) - 8)
           midiChannel := b &&& 0x0F
           midiDataRemaining := 0
           midiDataIndex := 2
           midiData := (s.midiData.set 0 d0).set 1 d1 }) := by
  have h0 : ¬ (d0 &&& 0x80 ≠ 0) := by simp [low_and d0 hd0]
  have h1 : ¬ (d1 &&& 0x80 ≠ 0) := by simp [low_and d1 hd1]
  have e1 : Midi.decode s b =
      ({ s with
          midiStatus := MidiStatus.ofIdx ((b >>> 4) - 8)
          midiDataRemaining := 2
          midiDataIndex := 0
          midiChannel := b &&& 0x0F }, []) := by
    unfold Midi.decode
    rw [if_pos hb, if_neg hst]
    simp only [htable]
  have e2 : Midi.decode
      ({ s with
          midiStatus := MidiStatus.ofIdx ((b >>> 4) - 8)
          midiDataRemaining := 2
          midiDataIndex := 0
          midiChannel := b &&& 0x0F }) d0 =
      ({ s with
          midiStatus := MidiStatus.ofIdx ((b >>> 4) - 8)
          midiDataRemaining := 1
          midiDataIndex := 1
          midiChannel := b &&& 0x0F
          midiData := s.midiData.set 0 d0 }, []) := by
    unfold Midi.decode
    rw [if_neg h0]
    norm_num
  have e3 : Midi.decode
      ({ s with
          midiStatus := MidiStatus.ofIdx ((b >>> 4) - 8)
          midiDataRemaining := 1
          midiDataIndex := 1
          midiChannel := b &&& 0x0F
          midiData := s.midiData.set 0 d0 }) d1 =
      ({ s with
          midiStatus := MidiStatus.ofIdx ((b >>> 4) - 8)
          midiDataRemaining := 0
          midiDataIndex := 2
          midiChannel := b &&& 0x0F
          midiData := (s.midiData.set 0 d0).set 1 d1 },
       Midi.dispatchCommand
         { s with
           midiStatus := MidiStatus.ofIdx ((b >>> 4) - 8)
           midiDataRemaining := 0
           midiDataIndex := 2
           midiChannel := b &&& 0x0F
           midiData := (s.midiData.set 0 d0).set 1 d1 }) := by
    unfold Midi.decode
    rw [if_neg h1]
    norm_num
  simp [Midi.feedAll, e1, e2, e3]

/-- Feeding a pitch-bend status byte and two data bytes dispatches a
single `pitchBend` event carrying the shift-or reconstruction of the two
data bytes, rebiased by 0x2000. -/
theorem pitch_events (s : MidiState) (ch lsb msb : Nat)
    (hst : s.midiStatus ≠ MidiStatus.Extended)
    (hlen : s.midiData.length = Midi.maxMidiData)
    (hch : ch < 16) (hlsb : lsb < 128) (hmsb : msb < 128) :
    (Midi.feedAll s [0xE0 + ch, lsb, msb]).2 =
      [MidiEvent.pitchBend ch (((msb <<< 7 ||| lsb : Nat) : Int) - 0x2000)] := by
  obtain ⟨hb, hidx, hch'⟩ := fin_pitchBend_status ⟨ch, hch⟩
  have htable : Midi.midiStatusToDataLength.getD
      (MidiStatus.ofIdx (((0xE0 + ch) >>> 4) - 8)).toIdx 0 = 2 := by
    rw [hidx]
    decide
  rw [feed_three s (0xE0 + ch) lsb msb hst hb htable hlsb hmsb]
  obtain ⟨a, c, t, hl⟩ := exists_cons₂ s.midiData (by rw [hlen]; decide)
  rw [hidx, hl]
  simp [Midi.dispatchCommand, MidiStatus.ofIdx, hch']

/-! Claim theorems. -/

/-- C1: in any decoder state whose status is `Extended` with `k` bytes
accumulated (`midiDataIndex = k`), feeding any byte with the high bit set
invokes the sysex handler exactly once, passing length `k` and the data
buffer (whose first `k` entries are the accumulated bytes), sets the
status to `Unknown`, and returns without starting a new message: channel,
`midiDataRemaining`, `midiDataIndex` and the buffer are untouched. -/
theorem sysex_terminated_by_status_byte (s : MidiState) (b : Nat)
    (hs : s.midiStatus = MidiStatus.Extended) (hb : b &&& 0x80 ≠ 0) :
    Midi.decode s b =
      ({ s with midiStatus := MidiStatus.Unknown },
       [MidiEvent.sysex s.midiDataIndex s.midiData]) := by
  unfold Midi.decode
  rw [if_pos hb, if_pos hs]

theorem sysex_terminated_by_status_byte_witness :
    (MidiState.mk MidiStatus.Extended 3 30 2 [7, 9]).midiStatus = MidiStatus.Extended ∧
    Midi.decode (MidiState.mk MidiStatus.Extended 3 30 2 [7, 9]) 0xF7 =
      (MidiState.mk MidiStatus.Unknown 3 30 2 [7, 9], [MidiEvent.sysex 2 [7, 9]]) :=
  ⟨rfl, sysex_terminated_by_status_byte (MidiState.mk MidiStatus.Extended 3 30 2 [7, 9])
    0xF7 rfl (by decide)⟩

/-- C4 (amended): in a decoder state with status `Unknown` and
`midiDataRemaining = 0` (in particular the initial idle state), feeding a
data byte produces no handler call and changes nothing. -/
theorem unknown_idle_data_byte_is_noop (s : MidiState) (b : Nat)
    (hst : s.midiStatus = MidiStatus.Unknown)
    (hrem : s.midiDataRemaining = 0)
    (hb : b &&& 0x80 = 0) :
    Midi.decode s b = (s, []) := by
  have hb' : ¬ (b &&& 0x80 ≠ 0) := by simp [hb]
  unfold Midi.decode
  rw [if_neg hb', hrem]
  norm_num

theorem unknown_idle_data_byte_is_noop_witness :
    Midi.initialState.midiStatus = MidiStatus.Unknown ∧
    Midi.initialState.midiDataRemaining = 0 ∧
    Midi.decode Midi.initialState 0x33 = (Midi.initialState, []) :=
  ⟨rfl, rfl, unknown_idle_data_byte_is_noop Midi.initialState 0x33 rfl rfl (by decide)⟩

/-- C4 (counterexample to the claim as stated): the state reached by
feeding `[0xF0, 0xF7]` has status `Unknown`, yet feeding the data byte
`0x00` there changes both `midiDataIndex` and `midiDataRemaining`
(sysex termination leaves `midiDataRemaining` positive). -/
theorem unknown_state_data_byte_counterexample :
    (Midi.feedAll Midi.initialState [0xF0, 0xF7]).1.midiStatus = MidiStatus.Unknown ∧
    (0x00 : Nat) &&& 0x80 = 0 ∧
    ¬ ((Midi.decode (Midi.feedAll Midi.initialState [0xF0, 0xF7]).1 0x00).1.midiDataIndex =
          (Midi.feedAll Midi.initialState [0xF0, 0xF7]).1.midiDataIndex ∧
        (Midi.decode (Midi.feedAll Midi.initialState [0xF0, 0xF7]).1 0x00).1.midiDataRemaining =
          (Midi.feedAll Midi.initialState [0xF0, 0xF7]).1.midiDataRemaining) := by
  decide

/-- C5: in every reachable decoder state, `midiDataIndex` never exceeds
the buffer capacity, and any buffer write performed by feeding a byte
lands at an index strictly below the capacity. -/
theorem writeIndex_within_capacity (s : MidiState) (h : Midi.Reachable s) :
    s.midiDataIndex ≤ Midi.maxMidiData ∧
    ∀ b : Nat, ∀ i ∈ Midi.decodeWriteIdx s b, i < Midi.maxMidiData := by
  obtain ⟨h1, -⟩ := reachable_inv s h
  simp only [Midi.maxMidiData] at h1 ⊢
  refine ⟨by omega, ?_⟩
  intro b i hi
  unfold Midi.decodeWriteIdx at hi
  split at hi
  · simp at hi
  · split at hi
    · next hr =>
      simp at hi
      omega
    · simp at hi

theorem writeIndex_within_capacity_witness :
    Midi.Reachable (Midi.decode Midi.initialState 0x90).1 ∧
    (Midi.decode Midi.initialState 0x90).1.midiDataIndex ≤ Midi.maxMidiData ∧
    (0 : Nat) < Midi.maxMidiData :=
  ⟨Midi.Reachable.step Midi.initialState 0x90 Midi.Reachable.init (by norm_num),
   (writeIndex_within_capacity (Midi.decode Midi.initialState 0x90).1
      (Midi.Reachable.step Midi.initialState 0x90 Midi.Reachable.init (by norm_num))).1,
   (writeIndex_within_capacity (Midi.decode Midi.initialState 0x90).1
      (Midi.Reachable.step Midi.initialState 0x90 Midi.Reachable.init (by norm_num))).2
     0x3C 0 (by decide)⟩

/-- C6: feeding a byte with the high bit set while status is not
`Extended` sets the status to the kind `(b >> 4) - 8`, the channel to
`b & 0x0F`, the expected remaining count to the spec's per-kind table
value, and resets `midiDataIndex` to 0. -/
theorem status_byte_starts_message (s : MidiState) (b : Nat)
    (hb256 : b < 256) (hb : b &&& 0x80 ≠ 0)
    (hst : s.midiStatus ≠ MidiStatus.Extended) :
    Midi.decode s b =
      ({ s with
          midiStatus := MidiStatus.ofIdx ((b >>> 4) - 8)
          midiChannel := b &&& 0x0F
          midiDataRemaining := Midi.specDataLength (MidiStatus.ofIdx ((b >>> 4) - 8))
          midiDataIndex := 0 }, []) := by
  have hidx := (msb_facts b hb256 hb).2
  unfold Midi.decode
  rw [if_pos hb, if_neg hst]
  simp only [table_eq_spec _ hidx]

theorem status_byte_starts_message_witness :
    (0x95 : Nat) < 256 ∧ (0x95 : Nat) &&& 0x80 ≠ 0 ∧
    Midi.initialState.midiStatus ≠ MidiStatus.Extended ∧
    Midi.decode Midi.initialState 0x95 =
      ({ Midi.initialState with
          midiStatus := MidiStatus.ofIdx ((0x95 >>> 4) - 8)
          midiChannel := 0x95 &&& 0x0F
          midiDataRemaining := Midi.specDataLength (MidiStatus.ofIdx ((0x95 >>> 4) - 8))
          midiDataIndex := 0 }, []) :=
  ⟨by decide, by decide, by decide,
   status_byte_starts_message Midi.initialState 0x95 (by decide) (by decide) (by decide)⟩

/-- C7: for a non-Extended status, the data byte that drops
`midiDataRemaining` to 0 triggers dispatch of the completed message,
leaves the status unchanged (not reset to `Unknown`) with
`midiDataRemaining = 0`, and a further data byte without a new status
byte is discarded with no handler call and no state change (running
status is not supported). -/
theorem completed_message_no_running_status (s : MidiState) (b b2 : Nat)
    (hst : s.midiStatus ≠ MidiStatus.Extended)
    (hb : b &&& 0x80 = 0) (hrem : s.midiDataRemaining = 1)
    (hb2 : b2 &&& 0x80 = 0) :
    (Midi.decode s b).1.midiStatus = s.midiStatus ∧
    (Midi.decode s b).1.midiDataRemaining = 0 ∧
    (Midi.decode s b).2 = Midi.dispatchCommand (Midi.decode s b).1 ∧
    Midi.decode (Midi.decode s b).1 b2 = ((Midi.decode s b).1, []) := by
  have hb' : ¬ (b &&& 0x80 ≠ 0) := by simp [hb]
  have hb2' : ¬ (b2 &&& 0x80 ≠ 0) := by simp [hb2]
  have e : Midi.decode s b =
      ({ s with
          midiData := s.midiData.set s.midiDataIndex b
          midiDataIndex := (s.midiDataIndex + 1) % 256
          midiDataRemaining := 0 },
       Midi.dispatchCommand
         { s with
            midiData := s.midiData.set s.midiDataIndex b
            midiDataIndex := (s.midiDataIndex + 1) % 256
            midiDataRemaining := 0 }) := by
    unfold Midi.decode
    rw [if_neg hb', hrem]
    norm_num
  have e2 : Midi.decode
      ({ s with
          midiData := s.midiData.set s.midiDataIndex b
          midiDataIndex := (s.midiDataIndex + 1) % 256
          midiDataRemaining := 0 }) b2 =
      ({ s with
          midiData := s.midiData.set s.midiDataIndex b
          midiDataIndex := (s.midiDataIndex + 1) % 256
          midiDataRemaining := 0 }, []) := by
    unfold Midi.decode
    rw [if_neg hb2']
    norm_num
  rw [e]
  exact ⟨rfl, rfl, rfl, e2⟩

theorem completed_message_no_running_status_witness :
    (Midi.decode Midi.initialState 0xC2).1.midiStatus ≠ MidiStatus.Extended ∧
    (0x10 : Nat) &&& 0x80 = 0 ∧
    (Midi.decode Midi.initialState 0xC2).1.midiDataRemaining = 1 ∧
    (0x11 : Nat) &&& 0x80 = 0 ∧
    ((Midi.decode (Midi.decode Midi.initialState 0xC2).1 0x10).1.midiStatus =
        (Midi.decode Midi.initialState 0xC2).1.midiStatus ∧
      (Midi.decode (Midi.decode Midi.initialState 0xC2).1 0x10).1.midiDataRemaining = 0 ∧
      (Midi.decode (Midi.decode Midi.initialState 0xC2).1 0x10).2 =
        Midi.dispatchCommand (Midi.decode (Midi.decode Midi.initialState 0xC2).1 0x10).1 ∧
      Midi.decode (Midi.decode (Midi.decode Midi.initialState 0xC2).1 0x10).1 0x11 =
        ((Midi.decode (Midi.decode Midi.initialState 0xC2).1 0x10).1, [])) :=
  ⟨by decide, by decide, by decide, by decide,
   completed_message_no_running_status (Midi.decode Midi.initialState 0xC2).1 0x10 0x11
     (by decide) (by decide) (by decide) (by decide)⟩

/-- C9: for every byte below 256, any index used by `Midi::decode` to
subscript the 8-entry `midiStatusToDataLength` table is in range 0..7; a
byte with the high bit set yields `(b >> 4) - 8 < 8`, and a data byte
(high bit clear) never touches the table. -/
theorem status_table_index_in_bounds (s : MidiState) (b : Nat) (hb : b < 256) :
    (∀ i ∈ Midi.decodeTableIdx s b, i < 8) ∧
    (b &&& 0x80 ≠ 0 → (b >>> 4) - 8 < 8) ∧
    (b &&& 0x80 = 0 → Midi.decodeTableIdx s b = []) := by
  refine ⟨?_, fun h => (msb_facts b hb h).2, fun h => by simp [Midi.decodeTableIdx, h]⟩
  intro i hi
  unfold Midi.decodeTableIdx at hi
  split at hi
  · next hcond =>
    split at hi
    · simp at hi
    · simp at hi
      rw [hi]
      exact (msb_facts b hb hcond).2
  · simp at hi

theorem status_table_index_in_bounds_witness :
    (0xF0 : Nat) < 256 ∧
    ((∀ i ∈ Midi.decodeTableIdx Midi.initialState 0xF0, i < 8) ∧
      ((0xF0 : Nat) &&& 0x80 ≠ 0 → ((0xF0 : Nat) >>> 4) - 8 < 8) ∧
      ((0xF0 : Nat) &&& 0x80 = 0 → Midi.decodeTableIdx Midi.initialState 0xF0 = [])) :=
  ⟨by decide, status_table_index_in_bounds Midi.initialState 0xF0 (by decide)⟩

/-- C10: feeding a status byte while a fixed-length channel message is
incomplete (status a channel kind, `midiDataRemaining > 0`) abandons the
partial message with no handler call, and re-initializes the decoder for
the new message. -/
theorem partial_message_abandoned (s : MidiState) (b : Nat)
    (hb256 : b < 256) (hb : b &&& 0x80 ≠ 0)
    (hst1 : s.midiStatus ≠ MidiStatus.Extended)
    (hst2 : s.midiStatus ≠ MidiStatus.Unknown)
    (hrem : 0 < s.midiDataRemaining) :
    (Midi.decode s b).2 = [] ∧
    (Midi.decode s b).1 =
      { s with
          midiStatus := MidiStatus.ofIdx ((b >>> 4) - 8)
          midiChannel := b &&& 0x0F
          midiDataRemaining := Midi.midiStatusToDataLength.getD
            (MidiStatus.ofIdx ((b >>> 4) - 8)).toIdx 0
          midiDataIndex := 0 } := by
  unfold Midi.decode
  rw [if_pos hb, if_neg hst1]
  exact ⟨rfl, rfl⟩

theorem partial_message_abandoned_witness :
    (0xB1 : Nat) < 256 ∧ (0xB1 : Nat) &&& 0x80 ≠ 0 ∧
    (Midi.decode Midi.initialState 0x94).1.midiStatus ≠ MidiStatus.Extended ∧
    (Midi.decode Midi.initialState 0x94).1.midiStatus ≠ MidiStatus.Unknown ∧
    0 < (Midi.decode Midi.initialState 0x94).1.midiDataRemaining ∧
    ((Midi.decode (Midi.decode Midi.initialState 0x94).1 0xB1).2 = [] ∧
      (Midi.decode (Midi.decode Midi.initialState 0x94).1 0xB1).1 =
        { (Midi.decode Midi.initialState 0x94).1 with
            midiStatus := MidiStatus.ofIdx ((0xB1 >>> 4) - 8)
            midiChannel := 0xB1 &&& 0x0F
            midiDataRemaining := Midi.midiStatusToDataLength.getD
              (MidiStatus.ofIdx ((0xB1 >>> 4) - 8)).toIdx 0
            midiDataIndex := 0 }) :=
  ⟨by decide, by decide, by decide, by decide, by decide,
   partial_message_abandoned (Midi.decode Midi.initialState 0x94).1 0xB1
     (by decide) (by decide) (by decide) (by decide) (by decide)⟩

/-- C2: a complete Note-On message (status `0x9n`, then note and velocity
data bytes) dispatches `noteOn` with matching channel, note and velocity
when the velocity is nonzero, and `noteOff(channel, note)` — not `noteOn`
— when the velocity is zero; no other handler is invoked. -/
theorem noteOn_message_dispatch (s : MidiState) (ch note vel : Nat)
    (hst : s.midiStatus ≠ MidiStatus.Extended)
    (hlen : s.midiData.length = Midi.maxMidiData)
    (hch : ch < 16) (hnote : note < 128) (hvel : vel < 128) :
    (Midi.feedAll s [0x90 + ch, note, vel]).2 =
      if vel = 0 then [MidiEvent.noteOff ch note]
      else [MidiEvent.noteOn ch note vel] := by
  obtain ⟨hb, hidx, hch'⟩ := fin_noteOn_status ⟨ch, hch⟩
  have htable : Midi.midiStatusToDataLength.getD
      (MidiStatus.ofIdx (((0x90 + ch) >>> 4) - 8)).toIdx 0 = 2 := by
    rw [hidx]
    decide
  rw [feed_three s (0x90 + ch) note vel hst hb htable hnote hvel]
  obtain ⟨a, c, t, hl⟩ := exists_cons₂ s.midiData (by rw [hlen]; decide)
  rw [hidx, hl]
  by_cases hv : vel = 0
  · simp [Midi.dispatchCommand, MidiStatus.ofIdx, hch', hv]
  · simp [Midi.dispatchCommand, MidiStatus.ofIdx, hch', hv]

theorem noteOn_message_dispatch_witness :
    Midi.initialState.midiStatus ≠ MidiStatus.Extended ∧
    Midi.initialState.midiData.length = Midi.maxMidiData ∧
    (Midi.feedAll Midi.initialState [0x90 + 0, 0x3C, 0x40]).2 =
      [MidiEvent.noteOn 0 0x3C 0x40] ∧
    (Midi.feedAll Midi.initialState [0x90 + 0, 0x3C, 0x00]).2 =
      [MidiEvent.noteOff 0 0x3C] := by
  refine ⟨by decide, by decide, ?_, ?_⟩
  · simpa using noteOn_message_dispatch Midi.initialState 0 0x3C 0x40
      (by decide) (by decide) (by decide) (by decide) (by decide)
  · simpa using noteOn_message_dispatch Midi.initialState 0 0x3C 0x00
      (by decide) (by decide) (by decide) (by decide) (by decide)

/-- C3: a complete pitch-bend message (status `0xEn`, then lsb and msb
data bytes) dispatches `pitchBend` exactly once with the value
`((msb << 7) | lsb) - 0x2000`, which always lies in -8192..8191. -/
theorem pitchBend_message_value (s : MidiState) (ch lsb msb : Nat)
    (hst : s.midiStatus ≠ MidiStatus.Extended)
    (hlen : s.midiData.length = Midi.maxMidiData)
    (hch : ch < 16) (hlsb : lsb < 128) (hmsb : msb < 128) :
    (Midi.feedAll s [0xE0 + ch, lsb, msb]).2 =
      [MidiEvent.pitchBend ch (((msb <<< 7 ||| lsb : Nat) : Int) - 0x2000)] ∧
    -8192 ≤ (((msb <<< 7 ||| lsb : Nat) : Int) - 0x2000) ∧
    (((msb <<< 7 ||| lsb : Nat) : Int) - 0x2000) ≤ 8191 := by
  refine ⟨pitch_events s ch lsb msb hst hlen hch hlsb hmsb, ?_, ?_⟩ <;>
  · rw [shiftLeft7_or msb lsb hmsb hlsb]
    push_cast
    omega

theorem pitchBend_message_value_witness :
    Midi.initialState.midiStatus ≠ MidiStatus.Extended ∧
    Midi.initialState.midiData.length = Midi.maxMidiData ∧
    ((Midi.feedAll Midi.initialState [0xE0 + 3, 0x01, 0x40]).2 =
        [MidiEvent.pitchBend 3 (((0x40 <<< 7 ||| 0x01 : Nat) : Int) - 0x2000)] ∧
      -8192 ≤ (((0x40 <<< 7 ||| 0x01 : Nat) : Int) - 0x2000) ∧
      (((0x40 <<< 7 ||| 0x01 : Nat) : Int) - 0x2000) ≤ 8191) :=
  ⟨by decide, by decide,
   pitchBend_message_value Midi.initialState 3 0x01 0x40
     (by decide) (by decide) (by decide) (by decide) (by decide)⟩

/-- C8: round trip — encoding a signed value `v` in -8192..8191 as
`lsb = (v + 0x2000) & 0x7F`, `msb = (v + 0x2000) >> 7` and feeding a
pitch-bend status byte then `lsb`, `msb` dispatches `pitchBend` with
exactly `v`. -/
theorem pitchBend_round_trip (s : MidiState) (ch : Nat) (v : Int)
    (hst : s.midiStatus ≠ MidiStatus.Extended)
    (hlen : s.midiData.length = Midi.maxMidiData)
    (hch : ch < 16) (hlo : -8192 ≤ v) (hhi : v ≤ 8191) :
    (Midi.feedAll s [0xE0 + ch, (v + 0x2000).toNat &&& 0x7F,
        (v + 0x2000).toNat >>> 7]).2 = [MidiEvent.pitchBend ch v] := by
  have hn : ((v + 0x2000).toNat : Int) = v + 0x2000 := Int.toNat_of_nonneg (by omega)
  have hnlt : (v + 0x2000).toNat < 16384 := by omega
  have hmod : (v + 0x2000).toNat &&& 0x7F = (v + 0x2000).toNat % 128 := by
    have h := Nat.and_pow_two_sub_one_eq_mod (v + 0x2000).toNat 7
    norm_num at h
    exact h
  have hdiv : (v + 0x2000).toNat >>> 7 = (v + 0x2000).toNat / 128 := by
    have h := Nat.shiftRight_eq_div_pow (v + 0x2000).toNat 7
    norm_num at h
    exact h
  have hlsb : (v + 0x2000).toNat &&& 0x7F < 128 := by
    rw [hmod]
    omega
  have hmsb : (v + 0x2000).toNat >>> 7 < 128 := by
    rw [hdiv]
    omega
  rw [pitch_events s ch _ _ hst hlen hch hlsb hmsb]
  have hval : ((v + 0x2000).toNat >>> 7) <<< 7 ||| ((v + 0x2000).toNat &&& 0x7F)
      = (v + 0x2000).toNat := by
    rw [shiftLeft7_or _ _ hmsb hlsb, hmod, hdiv]
    exact Nat.div_add_mod _ 128
  rw [hval, hn]
  norm_num

theorem pitchBend_round_trip_witness :
    Midi.initialState.midiStatus ≠ MidiStatus.Extended ∧
    (-8192 : Int) ≤ -1 ∧ (-1 : Int) ≤ 8191 ∧
    (Midi.feedAll Midi.initialState [0xE0 + 5, ((-1 : Int) + 0x2000).toNat &&& 0x7F,
        ((-1 : Int) + 0x2000).toNat >>> 7]).2 = [MidiEvent.pitchBend 5 (-1)] :=
  ⟨by decide, by decide, by decide,
   pitchBend_round_trip Midi.initialState 5 (-1)
     (by decide) (by decide) (by decide) (by decide) (by decide)⟩
